import Mathlib

set_option maxHeartbeats 1000000

/-!
Verification of the container-execution core of `n8n-nodes-claude-agent`.

The definitions below are shallow embeddings of the TypeScript source:
bytes are `Nat` (always below 256 where produced by the code), buffers are
`List Nat`, JavaScript exceptions are `Except`, and the Docker engine, the
filesystem helpers and the other imported-but-external functions are
abstracted as explicit behaviour records or function parameters so that the
control flow written in the repository itself is what the theorems speak
about.
-/

/- ## Log demultiplexer (RunContainer node, `runContainer`, parse loop)

The source loop is:

    let offset = 0;
    while (offset < logsBuffer.length) {
      const type = logsBuffer[offset];            // byte 0 of the frame
      const size = logsBuffer.readUInt32BE(offset + 4);   // bytes 4..7
      const content = logsBuffer.slice(offset + 8, offset + 8 + size);
      if (type === 1) stdout = concat(stdout, content);
      else if (type === 2) stderr = concat(stderr, content);
      offset += 8 + size;
    }

`Buffer.readUInt32BE(offset + 4)` throws a RangeError unless
`offset + 8 <= logsBuffer.length`, i.e. unless at least 8 bytes remain;
the 8-deep cons pattern below is exactly that bounds check. `slice` clamps
to the end of the buffer, which is `List.take`. -/

/-- The RangeError Node.js raises when `readUInt32BE` reads past the end. -/
def rangeErrorMsg : String := "RangeError: Attempt to access memory outside buffer bounds"

/-- One step of the demultiplexer consumes the 8-byte header and `size`
payload bytes; a nonempty remainder shorter than 8 bytes makes
`readUInt32BE` throw. -/
def demultiplexLogs : List Nat → Except String (List Nat × List Nat)
  | [] => .ok ([], [])
  | t :: _ :: _ :: _ :: s0 :: s1 :: s2 :: s3 :: tail =>
    let size := ((s0 * 256 + s1) * 256 + s2) * 256 + s3
    let content := tail.take size
    match demultiplexLogs (tail.drop size) with
    | .error e => .error e
    | .ok (so, se) =>
      if t = 1 then .ok (content ++ so, se)
      else if t = 2 then .ok (so, content ++ se)
      else .ok (so, se)
  | _ :: _ => .error rangeErrorMsg
termination_by l => l.length
decreasing_by simp [List.length_drop]; omega

/-- Big-endian 32-bit encoding of a payload length, as `writeUInt32BE`
would produce it. -/
def u32be (n : Nat) : List Nat :=
  [n / 16777216 % 256, n / 65536 % 256, n / 256 % 256, n % 256]

/-- The 8-byte frame header (tag, three reserved zero bytes, big-endian
length) followed by the payload. -/
def encodeFrame (t : Nat) (p : List Nat) : List Nat :=
  t :: 0 :: 0 :: 0 :: (u32be p.length ++ p)

/-- Concatenation of a sequence of encoded frames. -/
def encodeFrames (fs : List (Nat × List Nat)) : List Nat :=
  (fs.map fun f => encodeFrame f.1 f.2).flatten

/-- Concatenation of the payloads of all frames carrying a given tag,
in order. -/
def streamPayloads (t : Nat) : List (Nat × List Nat) → List Nat
  | [] => []
  | f :: fs => if f.1 = t then f.2 ++ streamPayloads t fs else streamPayloads t fs

theorem u32be_readback (n : Nat) (h : n ≤ 4294967295) :
    ((n / 16777216 % 256 * 256 + n / 65536 % 256) * 256 + n / 256 % 256) * 256 + n % 256 = n := by
  omega

theorem demultiplexLogs_nil : demultiplexLogs [] = .ok ([], []) := by
  simp [demultiplexLogs]

/-- Peeling one complete frame off the front of the buffer. -/
theorem demultiplexLogs_frame (t : Nat) (p rest : List Nat)
    (hp : p.length ≤ 4294967295) :
    demultiplexLogs (encodeFrame t p ++ rest) =
      match demultiplexLogs rest with
      | .error e => .error e
      | .ok (so, se) =>
        if t = 1 then .ok (p ++ so, se)
        else if t = 2 then .ok (so, p ++ se)
        else .ok (so, se) := by
  have hsize : ((p.length / 16777216 % 256 * 256 + p.length / 65536 % 256) * 256
      + p.length / 256 % 256) * 256 + p.length % 256 = p.length :=
    u32be_readback p.length hp
  simp only [encodeFrame, u32be, List.cons_append, List.append_assoc]
  rw [demultiplexLogs]
  simp only [hsize, List.nil_append, List.take_left, List.drop_left]

/-- Nonempty buffers shorter than the 8-byte header make `readUInt32BE`
throw. -/
theorem demultiplexLogs_short (l : List Nat) (h0 : l ≠ []) (h8 : l.length < 8) :
    demultiplexLogs l = .error rangeErrorMsg := by
  rcases l with _ | ⟨a, _ | ⟨b, _ | ⟨c, _ | ⟨d, _ | ⟨e, _ | ⟨f, _ | ⟨g, _ | ⟨h, rest⟩⟩⟩⟩⟩⟩⟩⟩
  · exact absurd rfl h0
  all_goals simp [demultiplexLogs] at h8 ⊢
  omega

/-- C1: for every sequence of frames with tag 1 (stdout) or 2 (stderr) and
payload length at most 2^32 - 1, encoding each frame as the 8-byte header
(tag byte, three zero bytes, big-endian 32-bit length) followed by its
payload, concatenating, and demultiplexing yields exactly the
concatenation of the tag-1 payloads as stdout and of the tag-2 payloads as
stderr. -/
theorem demux_encode_roundtrip (fs : List (Nat × List Nat))
    (h : ∀ f ∈ fs, (f.1 = 1 ∨ f.1 = 2) ∧ f.2.length ≤ 4294967295) :
    demultiplexLogs (encodeFrames fs) = .ok (streamPayloads 1 fs, streamPayloads 2 fs) := by
  induction fs with
  | nil => simp [encodeFrames, demultiplexLogs_nil, streamPayloads]
  | cons f fs ih =>
    obtain ⟨ht, hp⟩ := h f (by simp)
    have hrest : ∀ g ∈ fs, (g.1 = 1 ∨ g.1 = 2) ∧ g.2.length ≤ 4294967295 :=
      fun g hg => h g (by simp [hg])
    have henc : encodeFrames (f :: fs) = encodeFrame f.1 f.2 ++ encodeFrames fs := by
      simp [encodeFrames]
    rw [henc, demultiplexLogs_frame f.1 f.2 _ hp, ih hrest]
    rcases ht with h1 | h2
    · simp [streamPayloads, h1]
    · simp [streamPayloads, h2]

/-- C1 witness: a concrete three-frame stream round-trips. -/
theorem demux_encode_roundtrip_example :
    (∀ f ∈ [((1:Nat),([10,20]:List Nat)), (2,[30]), (1,[40])],
        (f.1 = 1 ∨ f.1 = 2) ∧ f.2.length ≤ 4294967295) ∧
    demultiplexLogs (encodeFrames [((1:Nat),([10,20]:List Nat)), (2,[30]), (1,[40])])
      = .ok ([10,20,40], [30]) := by
  constructor
  · decide
  · rw [demux_encode_roundtrip _ (by decide)]
    rfl

/-- C2 counterexample: on the single-byte buffer `[1]` the demultiplexer
raises a RangeError instead of dropping the truncated frame, so it is not
true that the demultiplexer never raises an error. -/
theorem demux_truncated_header_raises :
    demultiplexLogs [1] = .error rangeErrorMsg := by
  simp [demultiplexLogs]

/-- C2 amended: decoding of preceding complete frames still succeeds up to
the truncated trailer, but a trailing fragment of 1 to 7 bytes makes the
demultiplexer raise a RangeError, and a trailing frame with a complete
header whose payload is shorter than declared is not dropped: the partial
payload is appended to the stream selected by its tag (without error). -/
theorem demultiplexLogs_truncated (fs : List (Nat × List Nat))
    (h : ∀ f ∈ fs, (f.1 = 1 ∨ f.1 = 2) ∧ f.2.length ≤ 4294967295) :
    (∀ trailer : List Nat, trailer ≠ [] → trailer.length < 8 →
        demultiplexLogs (encodeFrames fs ++ trailer) = .error rangeErrorMsg) ∧
    (∀ t n q, (t = 1 ∨ t = 2) → q.length < n → n ≤ 4294967295 →
        demultiplexLogs (encodeFrames fs ++ (t :: 0 :: 0 :: 0 :: (u32be n ++ q)))
          = .ok (streamPayloads 1 fs ++ (if t = 1 then q else []),
                 streamPayloads 2 fs ++ (if t = 2 then q else []))) := by
  induction fs with
  | nil =>
    constructor
    · intro trailer h0 h8
      simpa [encodeFrames] using demultiplexLogs_short trailer h0 h8
    · intro t n q ht hq hn
      have hsize : ((n / 16777216 % 256 * 256 + n / 65536 % 256) * 256
          + n / 256 % 256) * 256 + n % 256 = n := u32be_readback n hn
      simp only [encodeFrames, List.map_nil, List.flatten_nil, List.nil_append, u32be,
        List.cons_append]
      rw [demultiplexLogs]
      have htake : q.take n = q := List.take_of_length_le (le_of_lt hq)
      have hdrop : q.drop n = [] := List.drop_eq_nil_of_le (le_of_lt hq)
      rw [hsize, htake, hdrop, demultiplexLogs_nil]
      rcases ht with h1 | h2
      · simp [streamPayloads, h1]
      · simp [streamPayloads, h2]
  | cons f fs ih =>
    have hf := h f (by simp)
    have hrest : ∀ g ∈ fs, (g.1 = 1 ∨ g.1 = 2) ∧ g.2.length ≤ 4294967295 :=
      fun g hg => h g (by simp [hg])
    obtain ⟨ihA, ihB⟩ := ih hrest
    have henc : encodeFrames (f :: fs) = encodeFrame f.1 f.2 ++ encodeFrames fs := by
      simp [encodeFrames]
    constructor
    · intro trailer h0 h8
      rw [henc, List.append_assoc, demultiplexLogs_frame f.1 f.2 _ hf.2, ihA trailer h0 h8]
    · intro t n q ht hq hn
      rw [henc, List.append_assoc, demultiplexLogs_frame f.1 f.2 _ hf.2, ihB t n q ht hq hn]
      rcases hf.1 with h1 | h2
      · simp [streamPayloads, h1]
      · simp [streamPayloads, h2]

/-- C2 amended witness: after one complete stdout frame, a 3-byte trailer
raises a RangeError, while a complete header declaring 4 payload bytes but
followed by only 2 appends those 2 bytes to stderr. -/
theorem demultiplexLogs_truncated_example :
    demultiplexLogs (encodeFrames [((1:Nat),([5]:List Nat))] ++ [2,0,0])
      = .error rangeErrorMsg ∧
    demultiplexLogs (encodeFrames [((1:Nat),([5]:List Nat))]
        ++ (2 :: 0 :: 0 :: 0 :: (u32be 4 ++ [9,9]))) = .ok ([5], [9,9]) := by
  constructor
  · exact (demultiplexLogs_truncated _ (by decide)).1 [2,0,0] (by decide) (by decide)
  · have h2 := (demultiplexLogs_truncated [((1:Nat),([5]:List Nat))] (by decide)).2
      2 4 [9,9] (by decide) (by decide) (by decide)
    simpa [streamPayloads] using h2

/- ## Engine transport (`dockerRequest` response handling)

The source resolves or rejects based on the buffered response:

    if (res.statusCode && res.statusCode >= 200 && res.statusCode < 300) {
      try {
        if (responseBody) { resolve(JSON.parse(responseBody)); }
        else { resolve({}); }
      } catch (e) { resolve(responseBody); }
    } else {
      reject(new Error(...status... - ...body...));
    }

`JSON.parse` is abstracted as a `parse` function; the only JavaScript fact
a theorem needs about it is that the empty string is not JSON. -/

/-- A minimal JSON value universe standing for what `JSON.parse` returns. -/
inductive Js where
  | null
  | bool (b : Bool)
  | num (n : Int)
  | str (s : String)
  | arr (elems : List Js)
  | obj (fields : List (String × Js))

/-- The rejection value: it carries the status code and the raw body. -/
structure DockerApiError where
  statusCode : Nat
  body : String
deriving DecidableEq

/-- The rejection message built by the source, verbatim (note the trailing
space). -/
def DockerApiError.message (e : DockerApiError) : String :=
  "Docker API Error: " ++ toString e.statusCode ++ " - " ++ e.body ++ " "

/-- What a `dockerRequest` promise resolves with. -/
inductive DockerValue where
  | json (v : Js)
  | raw (s : String)

/-- The end-of-response handler of `dockerRequest`. A JavaScript
`res.statusCode` that is `undefined` or `0` is falsy, hence rejected; this
is the `statusCode ≠ 0` conjunct. -/
def handleDockerResponse (parse : String → Option Js) (statusCode : Nat) (body : String) :
    Except DockerApiError DockerValue :=
  if statusCode ≠ 0 ∧ 200 ≤ statusCode ∧ statusCode < 300 then
    if body ≠ "" then
      match parse body with
      | some v => .ok (.json v)
      | none => .ok (.raw body)
    else .ok (.json (.obj []))
  else .error ⟨statusCode, body⟩

/-- C6: the transport resolves with the parsed JSON value on a 2xx status
with a JSON body, with an empty object on a 2xx status with an empty body,
with the raw body on a 2xx status with a nonempty non-JSON body, and
rejects exactly when the status is outside the 2xx range, the error
carrying the status code and raw body verbatim. -/
theorem dockerRequest_response_contract (parse : String → Option Js)
    (hparse : parse "" = none) (statusCode : Nat) (body : String) :
    (∀ v, 200 ≤ statusCode → statusCode < 300 → parse body = some v →
        handleDockerResponse parse statusCode body = .ok (.json v)) ∧
    (200 ≤ statusCode → statusCode < 300 → body = "" →
        handleDockerResponse parse statusCode body = .ok (.json (.obj []))) ∧
    (200 ≤ statusCode → statusCode < 300 → body ≠ "" → parse body = none →
        handleDockerResponse parse statusCode body = .ok (.raw body)) ∧
    (¬ (200 ≤ statusCode ∧ statusCode < 300) ↔
        handleDockerResponse parse statusCode body = .error ⟨statusCode, body⟩) := by
  refine ⟨?_, ?_, ?_, ?_, ?_⟩
  case refine_1 =>
    intro v h1 h2 hv
    have hb : body ≠ "" := by
      intro he
      rw [he, hparse] at hv
      cases hv
    rw [handleDockerResponse, if_pos ⟨by omega, h1, h2⟩, if_pos hb, hv]
  case refine_2 =>
    intro h1 h2 hbody
    subst hbody
    rw [handleDockerResponse, if_pos ⟨by omega, h1, h2⟩]
    simp
  case refine_3 =>
    intro h1 h2 hb hv
    rw [handleDockerResponse, if_pos ⟨by omega, h1, h2⟩, if_pos hb, hv]
  case refine_4 =>
    intro hn
    rw [handleDockerResponse, if_neg (by tauto)]
  case refine_5 =>
    intro he hc
    have hcond : statusCode ≠ 0 ∧ 200 ≤ statusCode ∧ statusCode < 300 :=
      ⟨by omega, hc.1, hc.2⟩
    rw [handleDockerResponse, if_pos hcond] at he
    by_cases hb : body ≠ ""
    · rw [if_pos hb] at he
      cases hpb : parse body <;> rw [hpb] at he <;> cases he
    · rw [if_neg hb] at he
      cases he

/-- C6 witness: with a parser that accepts nothing, a 500 response with
body "oops" rejects with the status and body carried verbatim. -/
theorem dockerRequest_response_contract_example :
    ((fun _ => (none : Option Js)) "" = none) ∧
    handleDockerResponse (fun _ => none) 500 "oops" = .error ⟨500, "oops"⟩ :=
  ⟨rfl, (dockerRequest_response_contract (fun _ => none) rfl 500 "oops").2.2.2.mp (by omega)⟩

/- ## Container lifecycle (`runContainer`, RunContainer node)

The source awaits, in order: POST /images/create (pull; the response
status is ignored, only a connection-level error rejects), POST
/containers/create, POST /containers/(id)/start, POST
/containers/(id)/wait, GET /containers/(id)/logs, then demultiplexes the
log buffer, then DELETE /containers/(id)?v=1, with no try/finally around
any step: the first rejection aborts the chain. The engine's behaviour for
each endpoint is abstracted as an outcome record, and the pair returned
records which requests were issued. -/

inductive LifecycleStep where
  | pull | create | start | wait | logs | remove
deriving DecidableEq

/-- The outcome each engine endpoint would produce if requested. The pull
request installs no status handler and resolves on the end of any HTTP
response, so its outcome is either a connection-level error (`.error`,
the only way the pull promise rejects) or a received response carrying
the HTTP status the engine reported (`.ok status`) — including non-2xx
statuses such as 404 for a nonexistent image. -/
structure EngineBehavior where
  pullResult : Except String Nat
  createResult : Except String String
  startResult : Except String Unit
  waitResult : Except String Int
  logsResult : Except String (List Nat)
  removeResult : Except String Unit

structure RunResult where
  stdout : List Nat
  stderr : List Nat
  statusCode : Int
deriving DecidableEq

/-- The value of the `runContainer` promise together with the sequence of
engine requests issued. -/
def runContainer (e : EngineBehavior) : Except String RunResult × List LifecycleStep :=
  match e.pullResult with
  | .error err => (.error err, [.pull])
  | .ok _httpStatus =>
    match e.createResult with
    | .error err => (.error err, [.pull, .create])
    | .ok _containerId =>
      match e.startResult with
      | .error err => (.error err, [.pull, .create, .start])
      | .ok _ =>
        match e.waitResult with
        | .error err => (.error err, [.pull, .create, .start, .wait])
        | .ok statusCode =>
          match e.logsResult with
          | .error err => (.error err, [.pull, .create, .start, .wait, .logs])
          | .ok logsBuffer =>
            match demultiplexLogs logsBuffer with
            | .error err => (.error err, [.pull, .create, .start, .wait, .logs])
            | .ok (stdout, stderr) =>
              match e.removeResult with
              | .error err => (.error err, [.pull, .create, .start, .wait, .logs, .remove])
              | .ok _ =>
                (.ok ⟨stdout, stderr, statusCode⟩,
                  [.pull, .create, .start, .wait, .logs, .remove])

/-- An engine whose pull endpoint is unreachable at the connection
level. -/
def pullFailBehavior : EngineBehavior :=
  { pullResult := .error "connect ENOENT /var/run/docker.sock",
    createResult := .ok "cid", startResult := .ok (), waitResult := .ok 0,
    logsResult := .ok [], removeResult := .ok () }

/-- An engine that reports the pull failed with an HTTP 404 (image not
found) while the remaining endpoints succeed, as they would when the
image is still present locally. -/
def pullHttp404Behavior : EngineBehavior :=
  { pullResult := .ok 404,
    createResult := .ok "cid", startResult := .ok (), waitResult := .ok 0,
    logsResult := .ok [], removeResult := .ok () }

/-- C4 counterexample: the pull step never checks the HTTP status of the
pull response, so an engine-reported pull failure (a 404 response) does
not terminate the execution: the container-create request is still
issued and the run completes successfully. -/
theorem pull_http_failure_still_creates :
    pullHttp404Behavior.pullResult = .ok 404 ∧
    LifecycleStep.create ∈ (runContainer pullHttp404Behavior).2 ∧
    (runContainer pullHttp404Behavior).1 = .ok ⟨[], [], 0⟩ := by
  refine ⟨rfl, ?_, ?_⟩ <;>
    simp [runContainer, pullHttp404Behavior, demultiplexLogs_nil]

/-- C4 amended: the pull promise rejects only on connection-level
failures, and only those are fatal: a connection-level pull failure
terminates the execution with that failure and no create request is ever
issued, while any received pull response — whatever its HTTP status, so
engine-reported pull failures included — lets the execution proceed and
the create request is issued. -/
theorem pull_failure_behavior (e : EngineBehavior) :
    (∀ err, e.pullResult = .error err →
      (runContainer e).1 = .error err ∧ LifecycleStep.create ∉ (runContainer e).2) ∧
    (∀ status, e.pullResult = .ok status →
      LifecycleStep.create ∈ (runContainer e).2) := by
  constructor
  · intro err h
    simp [runContainer, h]
  · intro status h
    obtain ⟨p, c, s, w, l, r⟩ := e
    cases h
    cases c <;> cases s <;> cases w <;> cases l <;> cases r <;> simp [runContainer]
    all_goals
      rcases hdm : demultiplexLogs _ with _ | ⟨so, se⟩ <;> simp [hdm]

/-- C4 amended witness: a connection-level pull failure aborts with no
create issued, while a 404 pull response still leads to a create
request. -/
theorem pull_failure_behavior_example :
    ((runContainer pullFailBehavior).1 = .error "connect ENOENT /var/run/docker.sock" ∧
      LifecycleStep.create ∉ (runContainer pullFailBehavior).2) ∧
    LifecycleStep.create ∈ (runContainer pullHttp404Behavior).2 :=
  ⟨(pull_failure_behavior pullFailBehavior).1 _ rfl,
   (pull_failure_behavior pullHttp404Behavior).2 404 rfl⟩

/-- An engine where everything up to start succeeds and wait fails. -/
def waitFailBehavior : EngineBehavior :=
  { pullResult := .ok 200, createResult := .ok "cid", startResult := .ok (),
    waitResult := .error "wait failed", logsResult := .ok [], removeResult := .ok () }

/-- An engine where everything succeeds except removal. -/
def removeFailBehavior : EngineBehavior :=
  { pullResult := .ok 200, createResult := .ok "cid", startResult := .ok (),
    waitResult := .ok 0, logsResult := .ok [], removeResult := .error "remove failed" }

/-- C3 counterexample: with a created and started container, a Wait
failure aborts the chain with no Remove request issued, and a Remove
failure is propagated to the caller in place of the successful execution
result; both contradict the claim. -/
theorem wait_failure_skips_remove :
    ((runContainer waitFailBehavior).1 = .error "wait failed" ∧
      LifecycleStep.remove ∉ (runContainer waitFailBehavior).2) ∧
    (runContainer removeFailBehavior).1 = .error "remove failed" := by
  refine ⟨⟨?_, ?_⟩, ?_⟩ <;>
    simp [runContainer, waitFailBehavior, removeFailBehavior, demultiplexLogs_nil]

/-- C3 amended: the Remove request is issued exactly when pull, create,
start, wait, logs and log decoding all succeed; a Wait or Logs failure
propagates with no Remove attempted; and when Remove is attempted, a
Remove failure is propagated to the caller as the execution's error. -/
theorem runContainer_remove_behavior (e : EngineBehavior) :
    (LifecycleStep.remove ∈ (runContainer e).2 ↔
      (∃ u, e.pullResult = .ok u) ∧ (∃ cid, e.createResult = .ok cid) ∧
      (∃ u, e.startResult = .ok u) ∧ (∃ n, e.waitResult = .ok n) ∧
      (∃ buf, e.logsResult = .ok buf ∧ ∃ p, demultiplexLogs buf = .ok p)) ∧
    (∀ msg, e.waitResult = .error msg → (∃ u, e.pullResult = .ok u) →
      (∃ cid, e.createResult = .ok cid) → (∃ u, e.startResult = .ok u) →
      (runContainer e).1 = .error msg ∧ LifecycleStep.remove ∉ (runContainer e).2) ∧
    (∀ msg, e.logsResult = .error msg → (∃ u, e.pullResult = .ok u) →
      (∃ cid, e.createResult = .ok cid) → (∃ u, e.startResult = .ok u) →
      (∃ n, e.waitResult = .ok n) →
      (runContainer e).1 = .error msg ∧ LifecycleStep.remove ∉ (runContainer e).2) ∧
    (∀ msg, e.removeResult = .error msg → LifecycleStep.remove ∈ (runContainer e).2 →
      (runContainer e).1 = .error msg) := by
  obtain ⟨p, c, s, w, l, r⟩ := e
  cases p <;> cases c <;> cases s <;> cases w <;> cases l <;> cases r <;>
    simp [runContainer]
  all_goals
    rcases hdm : demultiplexLogs _ with _ | ⟨so, se⟩ <;> simp [hdm]

/-- C3 amended witness: the all-ok-but-remove engine does attempt Remove
and its failure becomes the caller-visible error. -/
theorem runContainer_remove_behavior_example :
    (runContainer removeFailBehavior).1 = .error "remove failed" :=
  (runContainer_remove_behavior removeFailBehavior).2.2.2 "remove failed" rfl
    (by simp [runContainer, removeFailBehavior, demultiplexLogs_nil])

/- ## Resource limit estimator

Modelled from the spec: `calculateResourceLimits` lives in
`BinaryDataHelpers`, which the two execute paths import but whose source
file is not part of the repository snapshot; only its call sites are.
Following the spec (section 4.7), it is a pure function of the total
staged input size that scales a memory allotment and a CPU quota linearly
with that size and clamps each between a fixed floor and a fixed ceiling;
the floors, ceilings and scale factors are left as parameters since the
spec names no concrete values. -/

/-- Clamp a value between a floor and a ceiling. -/
def clampNat (lo hi x : Nat) : Nat := max lo (min x hi)

/-- The fixed configuration of the estimator: floors, ceilings and linear
scale factors for memory bytes and CPU quota. -/
structure EstimatorParams where
  memFloor : Nat
  memCeil : Nat
  memPerByte : Nat
  cpuFloor : Nat
  cpuCeil : Nat
  cpuPerByte : Nat
deriving DecidableEq

/-- Modelled from the spec: estimate of (memory bytes, CPU quota) from the
total staged input size. -/
def estimateFromTotal (p : EstimatorParams) (totalInputBytes : Nat) : Nat × Nat :=
  (clampNat p.memFloor p.memCeil (p.memPerByte * totalInputBytes),
   clampNat p.cpuFloor p.cpuCeil (p.cpuPerByte * totalInputBytes))

/-- Modelled from the spec: `calculateResourceLimits(fileSizes)` as called
by the execute paths, a pure function of the total of the staged file
sizes. -/
def calculateResourceLimits (p : EstimatorParams) (fileSizes : List Nat) : Nat × Nat :=
  estimateFromTotal p fileSizes.sum

theorem clampNat_mono (lo hi : Nat) {x y : Nat} (h : x ≤ y) :
    clampNat lo hi x ≤ clampNat lo hi y := by
  unfold clampNat
  omega

theorem clampNat_bounds (lo hi x : Nat) (h : lo ≤ hi) :
    lo ≤ clampNat lo hi x ∧ clampNat lo hi x ≤ hi := by
  unfold clampNat
  omega

/-- C9: the estimator is a pure function of total staged input size,
monotone non-decreasing componentwise, and for every size it stays within
the configured floor and ceiling. -/
theorem calculateResourceLimits_monotone_bounded (p : EstimatorParams)
    (hm : p.memFloor ≤ p.memCeil) (hc : p.cpuFloor ≤ p.cpuCeil) :
    (∀ sizes : List Nat, calculateResourceLimits p sizes = estimateFromTotal p sizes.sum) ∧
    (∀ a b : Nat, a ≤ b →
      (estimateFromTotal p a).1 ≤ (estimateFromTotal p b).1 ∧
      (estimateFromTotal p a).2 ≤ (estimateFromTotal p b).2) ∧
    (∀ s : Nat,
      p.memFloor ≤ (estimateFromTotal p s).1 ∧ (estimateFromTotal p s).1 ≤ p.memCeil ∧
      p.cpuFloor ≤ (estimateFromTotal p s).2 ∧ (estimateFromTotal p s).2 ≤ p.cpuCeil) := by
  refine ⟨fun _ => rfl, fun a b hab => ⟨?_, ?_⟩, fun s => ?_⟩
  · exact clampNat_mono _ _ (Nat.mul_le_mul_left _ hab)
  · exact clampNat_mono _ _ (Nat.mul_le_mul_left _ hab)
  · obtain ⟨h1, h2⟩ := clampNat_bounds p.memFloor p.memCeil (p.memPerByte * s) hm
    obtain ⟨h3, h4⟩ := clampNat_bounds p.cpuFloor p.cpuCeil (p.cpuPerByte * s) hc
    exact ⟨h1, h2, h3, h4⟩

/-- C9 witness: a concrete estimator configuration (floor 128 MiB and
half a CPU, ceiling 2 GiB and four CPUs) with two staged files. -/
theorem calculateResourceLimits_monotone_bounded_example :
    (128 * 1024 * 1024 ≤ 2 * 1024 * 1024 * 1024 ∧ 50000 ≤ 400000) ∧
    (calculateResourceLimits
        ⟨128 * 1024 * 1024, 2 * 1024 * 1024 * 1024, 1, 50000, 400000, 1⟩ [1000, 24]
      = estimateFromTotal
          ⟨128 * 1024 * 1024, 2 * 1024 * 1024 * 1024, 1, 50000, 400000, 1⟩ 1024) := by
  refine ⟨by decide, ?_⟩
  have h := (calculateResourceLimits_monotone_bounded
    ⟨128 * 1024 * 1024, 2 * 1024 * 1024 * 1024, 1, 50000, 400000, 1⟩
    (by decide) (by decide)).1 [1000, 24]
  simpa using h

/- ## Execute paths: RunContainer node with binary data, and
`executeContainerWithBinary`

The per-item bodies of `RunContainer.execute` and of
`executeContainerWithBinary` are line-for-line identical from the
configuration build through binary staging, container execution and
output collection; they differ only in where the environment variables
come from (a `processEnvironmentVariables` call that may throw, versus a
plain parameter). The imported helpers (`detectDockerSocket`,
`validateDockerImageName`, `prepareBinaryInput`, `createOutputDirectory`,
`fs.mkdtemp`, `executeContainer`, `collectBinaryOutput`,
`calculateResourceLimits`, `formatDockerError`, `isDockerConnectionError`,
`cleanupTempDirectory`) are abstracted as per-item outcome fields and
function parameters; the control flow below is the repository's own. -/

/-- Equality of `Except` values is decidable when it is on both sides. -/
instance {ε α : Type} [DecidableEq ε] [DecidableEq α] : DecidableEq (Except ε α) := fun x y =>
  match x, y with
  | .ok a, .ok b =>
    if h : a = b then isTrue (by rw [h]) else isFalse (by intro hc; cases hc; exact h rfl)
  | .error a, .error b =>
    if h : a = b then isTrue (by rw [h]) else isFalse (by intro hc; cases hc; exact h rfl)
  | .ok _, .error _ => isFalse (by intro hc; cases hc)
  | .error _, .ok _ => isFalse (by intro hc; cases hc)

structure ValidationResult where
  valid : Bool
  errors : List String
deriving DecidableEq

structure PreparedBinary where
  tempDir : String
  mountPoints : List (String × String)
  fileSizes : List Nat
deriving DecidableEq

inductive ItemErr where
  | validation (msg : String)
  | env (msg : String)
  | staging (msg : String)
  | mkdtempFail (msg : String)
  | outputDir (msg : String)
  | engine (msg : String)
  | collect (msg : String)
  | node (msg : String)
deriving DecidableEq

structure ContainerExecutionConfig where
  image : String
  entrypoint : Option String
  command : Option String
  environmentVariables : List String
  socketPath : String
  autoRemove : Bool
  pullPolicy : String
  volumes : Option (List String) := none
  memory : Option Nat := none
  cpuQuota : Option Nat := none
deriving DecidableEq

structure ExecResult where
  stdout : String
  stderr : String
  exitCode : Int
  success : Bool
  hasOutput : Bool
deriving DecidableEq

structure ContainerInfo where
  image : String
  command : Option String
  entrypoint : Option String
  environmentVariablesCount : Nat
  socketPath : String
  binaryInput : Bool
  binaryOutput : Bool
deriving DecidableEq

structure ItemOut where
  stdout : String
  stderr : String
  exitCode : Int
  success : Bool
  hasOutput : Bool
  container : ContainerInfo
  binary : Option (List (String × String)) := none
  outputFilesCount : Option Nat := none
deriving DecidableEq

/-- The parameters of one input item together with the outcome every
external helper would produce for it during this execution. -/
structure ItemBehavior where
  image : String
  entrypoint : String
  command : String
  detectedSocket : String
  validation : ValidationResult
  envResult : Except ItemErr (List String × Nat)
  envVars : List String
  binaryDataInput : Bool
  binaryDataOutput : Bool
  mappings : List (String × String)
  stagingResult : Except ItemErr PreparedBinary
  mkdtempResult : Except ItemErr String
  outputDirResult : Except ItemErr Unit
  engineResult : Except ItemErr ExecResult
  collectResult : Except ItemErr (List (String × String))
  outputFilePattern : String
deriving DecidableEq

/-- The observable effects of processing one item: its settled result, the
temp directories pushed onto the cleanup list, the configurations handed
to `executeContainer`, and the `createOutputDirectory` calls. -/
structure ItemTrace where
  result : Except ItemErr ItemOut
  acquiredDirs : List String
  engineConfigs : List ContainerExecutionConfig
  outputDirCalls : List String
deriving DecidableEq

/-- The container configuration as first assembled, before the binary
phase may add volumes and resource limits. -/
def initialConfig (b : ItemBehavior) (envVariables : List String) : ContainerExecutionConfig :=
  { image := b.image,
    entrypoint := if b.entrypoint = "" then none else some b.entrypoint,
    command := if b.command = "" then none else some b.command,
    environmentVariables := envVariables,
    socketPath := b.detectedSocket,
    autoRemove := true,
    pullPolicy := "missing" }

/-- The read-only bind string for one staged mount point. -/
def roBind (mp : String × String) : String := mp.1 ++ ":" ++ mp.2 ++ ":ro"

/-- The read-write output bind string rooted at the staging directory. -/
def rwOutputBind (tempDir : String) : String := tempDir ++ "/output:/output:rw"

/-- The binary input/output staging phase. Returns the possibly extended
configuration and the temp directory (if one was assigned), plus the
directories pushed onto the cleanup list and the
`createOutputDirectory` calls; an `.error` models the thrown exception of
the corresponding helper, after which the item's processing stops. -/
def binaryPhase (est : List Nat → Nat × Nat) (b : ItemBehavior)
    (cfg0 : ContainerExecutionConfig) :
    Except ItemErr (ContainerExecutionConfig × Option String) × List String × List String :=
  if b.binaryDataInput then
    if b.mappings.isEmpty then (.ok (cfg0, none), [], [])
    else
      match b.stagingResult with
      | .error e => (.error e, [], [])
      | .ok pb =>
        let volumes := pb.mountPoints.map roBind
        if b.binaryDataOutput then
          match b.outputDirResult with
          | .error e => (.error e, [pb.tempDir], [pb.tempDir])
          | .ok _ =>
            let volumes2 := volumes ++ [rwOutputBind pb.tempDir]
            let limits := est pb.fileSizes
            let cfg := { cfg0 with
              volumes := some volumes2, memory := some limits.1, cpuQuota := some limits.2 }
            (.ok (cfg, some pb.tempDir), [pb.tempDir], [pb.tempDir])
        else
          let limits := est pb.fileSizes
          let cfg := { cfg0 with
            volumes := some volumes, memory := some limits.1, cpuQuota := some limits.2 }
          (.ok (cfg, some pb.tempDir), [pb.tempDir], [])
  else if b.binaryDataOutput then
    match b.mkdtempResult with
    | .error e => (.error e, [], [])
    | .ok tempDir =>
      match b.outputDirResult with
      | .error e => (.error e, [tempDir], [tempDir])
      | .ok _ =>
        (.ok ({ cfg0 with volumes := some [rwOutputBind tempDir] }, some tempDir),
         [tempDir], [tempDir])
  else (.ok (cfg0, none), [], [])

/-- The shared tail of both per-item bodies: build the configuration, run
the binary phase, execute the container, and collect binary output. -/
def runWithConfig (est : List Nat → Nat × Nat) (b : ItemBehavior)
    (envVariables : List String) (envCount : Nat) : ItemTrace :=
  match binaryPhase est b (initialConfig b envVariables) with
  | (.error e, acq, odc) => ⟨.error e, acq, [], odc⟩
  | (.ok (cfg, tempDir), acq, odc) =>
    let result : Except ItemErr ItemOut :=
      match b.engineResult with
      | .error e => .error e
      | .ok r =>
        let out0 : ItemOut :=
          { stdout := r.stdout, stderr := r.stderr, exitCode := r.exitCode,
            success := r.success, hasOutput := r.hasOutput,
            container :=
              { image := b.image, command := cfg.command, entrypoint := cfg.entrypoint,
                environmentVariablesCount := envCount, socketPath := b.detectedSocket,
                binaryInput := b.binaryDataInput, binaryOutput := b.binaryDataOutput } }
        if b.binaryDataOutput && tempDir.isSome then
          match b.collectResult with
          | .error e => .error e
          | .ok files =>
            if files.isEmpty then .ok out0
            else .ok { out0 with binary := some files, outputFilesCount := some files.length }
        else .ok out0
    ⟨result, acq, [cfg], odc⟩

/-- The per-item body of `RunContainer.execute`: socket detection, image
validation, environment processing, then the shared tail. -/
def runContainerExecuteItem (est : List Nat → Nat × Nat) (b : ItemBehavior) : ItemTrace :=
  if b.validation.valid = false then
    ⟨.error (.validation ("Invalid Docker image: "
        ++ String.intercalate ", " b.validation.errors)), [], [], []⟩
  else
    match b.envResult with
    | .error e => ⟨.error e, [], [], []⟩
    | .ok envData => runWithConfig est b envData.1 envData.2

/-- The try-body of `executeContainerWithBinary`: socket detection, image
validation, then the shared tail with the caller-supplied variables. -/
def executeContainerWithBinaryBody (est : List Nat → Nat × Nat) (b : ItemBehavior) : ItemTrace :=
  if b.validation.valid = false then
    ⟨.error (.validation ("Invalid Docker image: "
        ++ String.intercalate ", " b.validation.errors)), [], [], []⟩
  else runWithConfig est b b.envVars b.envVars.length

/-- `Promise.allSettled` over the cleanup of a list of directories: every
directory is passed to the cleanup function and the outcomes are
collected without any outcome aborting the rest. -/
def allSettledCleanup (cleanup : String → Except String Unit) :
    List String → List (String × Except String Unit)
  | [] => []
  | d :: ds => (d, cleanup d) :: allSettledCleanup cleanup ds

/-- The full `executeContainerWithBinary`: the try-body, then the catch
that re-labels the error via `formatDockerError` (abstracted as `fmt` and
the connection-error test `isConn`), then the finally that settles the
cleanup of the acquired directories. Besides the trace it returns the
list of directories on which cleanup was attempted. -/
def executeContainerWithBinary (est : List Nat → Nat × Nat)
    (fmt : ItemErr → String → String → String) (isConn : ItemErr → Bool)
    (cleanup : String → Except String Unit) (b : ItemBehavior) :
    ItemTrace × List String :=
  let t := executeContainerWithBinaryBody est b
  let result : Except ItemErr ItemOut :=
    match t.result with
    | .ok o => .ok o
    | .error e =>
      .error (.node (if isConn e then
          fmt e "connection" "Make sure Docker is running and accessible"
        else fmt e "container execution" ("Image: " ++ b.image)))
  ({ t with result := result }, (allSettledCleanup cleanup t.acquiredDirs).map Prod.fst)

/-- One row of the node's returnData: a successful record, or the error
record pushed when continue-on-fail is enabled. -/
inductive OutRec where
  | ok (o : ItemOut)
  | failed (msg : String)
deriving DecidableEq

/-- The item loop of `RunContainer.execute`: processes the items in order,
accumulating return data, the shared `tempDirectories` list and the
engine configurations; without continue-on-fail the first failure aborts
the loop (the directories acquired so far remain on the list). -/
def runContainerLoop (est : List Nat → Nat × Nat)
    (fmt : ItemErr → String → String → String) (isConn : ItemErr → Bool) (cof : Bool) :
    List ItemBehavior →
      Except String (List OutRec) × List String × List ContainerExecutionConfig
  | [] => (.ok [], [], [])
  | b :: rest =>
    let t := runContainerExecuteItem est b
    match t.result with
    | .ok o =>
      let next := runContainerLoop est fmt isConn cof rest
      (match next.1 with
       | .ok outs => .ok (OutRec.ok o :: outs)
       | .error m => .error m,
       t.acquiredDirs ++ next.2.1, t.engineConfigs ++ next.2.2)
    | .error e =>
      let msg := if isConn e then
          fmt e "connection" "Make sure Docker is running and accessible"
        else fmt e "container execution" ("Image: " ++ b.image)
      if cof then
        let next := runContainerLoop est fmt isConn cof rest
        (match next.1 with
         | .ok outs => .ok (OutRec.failed msg :: outs)
         | .error m => .error m,
         t.acquiredDirs ++ next.2.1, t.engineConfigs ++ next.2.2)
      else (.error msg, t.acquiredDirs, t.engineConfigs)

/-- The observable effects of one `RunContainer.execute` call. -/
structure ExecuteTrace where
  result : Except String (List OutRec)
  acquired : List String
  cleanupAttempts : List String
  engineConfigs : List ContainerExecutionConfig
deriving DecidableEq

/-- `RunContainer.execute`: the item loop inside try, and the finally that
settles cleanup of every directory on the shared `tempDirectories`
list. -/
def runContainerExecute (est : List Nat → Nat × Nat)
    (fmt : ItemErr → String → String → String) (isConn : ItemErr → Bool) (cof : Bool)
    (cleanup : String → Except String Unit) (items : List ItemBehavior) : ExecuteTrace :=
  let loop := runContainerLoop est fmt isConn cof items
  { result := loop.1, acquired := loop.2.1,
    cleanupAttempts := (allSettledCleanup cleanup loop.2.1).map Prod.fst,
    engineConfigs := loop.2.2 }

theorem allSettledCleanup_fst (cleanup : String → Except String Unit) (dirs : List String) :
    (allSettledCleanup cleanup dirs).map Prod.fst = dirs := by
  induction dirs with
  | nil => rfl
  | cons d ds ih => simp [allSettledCleanup, ih]

/-- C5: in both execute paths the finally block attempts the cleanup of
exactly the acquired temporary directories on every exit path (the items
are arbitrary, so validation failures, staging failures, engine failures
and successes are all covered); the attempt list and the settled result
are both independent of the cleanup outcomes, so one directory's cleanup
failure neither prevents another directory's cleanup attempt nor fails
the overall execution. -/
theorem cleanup_all_exit_paths (est : List Nat → Nat × Nat)
    (fmt : ItemErr → String → String → String) (isConn : ItemErr → Bool) (cof : Bool)
    (cleanup cleanup2 : String → Except String Unit) (items : List ItemBehavior)
    (b : ItemBehavior) :
    ((runContainerExecute est fmt isConn cof cleanup items).cleanupAttempts
        = (runContainerExecute est fmt isConn cof cleanup items).acquired) ∧
    ((runContainerExecute est fmt isConn cof cleanup2 items).result
        = (runContainerExecute est fmt isConn cof cleanup items).result) ∧
    ((runContainerExecute est fmt isConn cof cleanup2 items).cleanupAttempts
        = (runContainerExecute est fmt isConn cof cleanup items).cleanupAttempts) ∧
    ((executeContainerWithBinary est fmt isConn cleanup b).2
        = (executeContainerWithBinaryBody est b).acquiredDirs) ∧
    ((executeContainerWithBinary est fmt isConn cleanup2 b).1.result
        = (executeContainerWithBinary est fmt isConn cleanup b).1.result) := by
  refine ⟨?_, rfl, ?_, ?_, rfl⟩
  · simp [runContainerExecute, allSettledCleanup_fst]
  · simp [runContainerExecute, allSettledCleanup_fst]
  · simp [executeContainerWithBinary, allSettledCleanup_fst]

/-- C7: in both execute paths, when image validation fails the item ends
with the aggregated-violations error and no configuration is ever handed
to the engine client, so no pull or create request is made for that
item. -/
theorem validation_before_engine (est : List Nat → Nat × Nat) (b : ItemBehavior)
    (h : b.validation.valid = false) :
    ((runContainerExecuteItem est b).result
        = .error (.validation ("Invalid Docker image: "
            ++ String.intercalate ", " b.validation.errors)) ∧
      (runContainerExecuteItem est b).engineConfigs = []) ∧
    ((executeContainerWithBinaryBody est b).result
        = .error (.validation ("Invalid Docker image: "
            ++ String.intercalate ", " b.validation.errors)) ∧
      (executeContainerWithBinaryBody est b).engineConfigs = []) := by
  simp [runContainerExecuteItem, executeContainerWithBinaryBody, h]

/-- An item whose image reference fails validation. -/
def invalidImageItem : ItemBehavior :=
  { image := "UPPER/Repo", entrypoint := "", command := "", detectedSocket := "/var/run/docker.sock",
    validation := { valid := false, errors := ["repository name must be lowercase"] },
    envResult := .ok ([], 0), envVars := [],
    binaryDataInput := false, binaryDataOutput := false, mappings := [],
    stagingResult := .error (.staging "unused"), mkdtempResult := .error (.mkdtempFail "unused"),
    outputDirResult := .ok (), engineResult := .ok ⟨"", "", 0, true, false⟩,
    collectResult := .ok [], outputFilePattern := "*" }

/-- C7 witness: for a concrete invalid image the node path raises the
aggregated validation error and hands nothing to the engine. -/
theorem validation_before_engine_example :
    invalidImageItem.validation.valid = false ∧
    (runContainerExecuteItem (fun _ => (0, 0)) invalidImageItem).result
      = .error (.validation "Invalid Docker image: repository name must be lowercase") ∧
    (runContainerExecuteItem (fun _ => (0, 0)) invalidImageItem).engineConfigs = [] := by
  have h := (validation_before_engine (fun _ => (0, 0)) invalidImageItem rfl).1
  exact ⟨rfl, h.1, h.2⟩

/-- Any configuration handed to the engine comes from a successful binary
phase. -/
theorem runWithConfig_engineConfigs (est : List Nat → Nat × Nat) (b : ItemBehavior)
    (env : List String) (cnt : Nat) (c : ContainerExecutionConfig)
    (hc : c ∈ (runWithConfig est b env cnt).engineConfigs) :
    ∃ td acq odc, binaryPhase est b (initialConfig b env) = (.ok (c, td), acq, odc) := by
  unfold runWithConfig at hc
  rcases hbp : binaryPhase est b (initialConfig b env) with ⟨res, acq, odc⟩
  rw [hbp] at hc
  cases res with
  | error e => simp at hc
  | ok p =>
    obtain ⟨cfg, td⟩ := p
    simp at hc
    subst hc
    exact ⟨td, acq, odc, rfl⟩

/-- The binary phase under staged binary input. -/
theorem binaryPhase_staged (est : List Nat → Nat × Nat) (b : ItemBehavior)
    (cfg0 : ContainerExecutionConfig) (pb : PreparedBinary)
    (hin : b.binaryDataInput = true) (hmap : b.mappings ≠ [])
    (hst : b.stagingResult = .ok pb) :
    binaryPhase est b cfg0 =
      if b.binaryDataOutput then
        match b.outputDirResult with
        | .error e => (.error e, [pb.tempDir], [pb.tempDir])
        | .ok _ =>
          (.ok ({ cfg0 with
              volumes := some (pb.mountPoints.map roBind ++ [rwOutputBind pb.tempDir]),
              memory := some (est pb.fileSizes).1, cpuQuota := some (est pb.fileSizes).2 },
            some pb.tempDir), [pb.tempDir], [pb.tempDir])
      else
        (.ok ({ cfg0 with
            volumes := some (pb.mountPoints.map roBind),
            memory := some (est pb.fileSizes).1, cpuQuota := some (est pb.fileSizes).2 },
          some pb.tempDir), [pb.tempDir], []) := by
  have hne : b.mappings.isEmpty = false := by
    cases hm : b.mappings with
    | nil => exact absurd hm hmap
    | cons x xs => rfl
  by_cases hbo : b.binaryDataOutput
  · rw [if_pos hbo]
    cases hod : b.outputDirResult with
    | error e => simp [binaryPhase, hin, hne, hst, hbo, hod]
    | ok u => simp [binaryPhase, hin, hne, hst, hbo, hod]
  · rw [if_neg hbo]
    simp [binaryPhase, hin, hne, hst, hbo]

/-- The volumes of any engine-bound configuration built from staged
binary input. -/
theorem runWithConfig_volumes (est : List Nat → Nat × Nat) (b : ItemBehavior)
    (pb : PreparedBinary) (env : List String) (cnt : Nat)
    (hin : b.binaryDataInput = true) (hmap : b.mappings ≠ [])
    (hst : b.stagingResult = .ok pb) (c : ContainerExecutionConfig)
    (hc : c ∈ (runWithConfig est b env cnt).engineConfigs) :
    ∃ outputBinds : List String,
      c.volumes = some (pb.mountPoints.map roBind ++ outputBinds) ∧
      outputBinds.length ≤ 1 ∧
      (b.binaryDataOutput = true → outputBinds = [pb.tempDir ++ "/output:/output:rw"]) ∧
      (b.binaryDataOutput = false → outputBinds = []) := by
  obtain ⟨td, acq, odc, hbp⟩ := runWithConfig_engineConfigs est b env cnt c hc
  rw [binaryPhase_staged est b (initialConfig b env) pb hin hmap hst] at hbp
  by_cases hbo : b.binaryDataOutput
  · rw [if_pos hbo] at hbp
    cases hod : b.outputDirResult with
    | error e =>
      rw [hod] at hbp
      simp at hbp
    | ok u =>
      rw [hod] at hbp
      simp at hbp
      obtain ⟨⟨hcfg, -⟩, -, -⟩ := hbp
      refine ⟨[pb.tempDir ++ "/output:/output:rw"], ?_, by simp, fun _ => rfl, fun hf => ?_⟩
      · rw [← hcfg]
        simp [rwOutputBind]
      · rw [hbo] at hf
        cases hf
  · rw [if_neg hbo] at hbp
    simp at hbp
    obtain ⟨⟨hcfg, -⟩, -, -⟩ := hbp
    refine ⟨[], ?_, by simp, fun ht => ?_, fun _ => rfl⟩
    · rw [← hcfg]
      simp
    · rw [ht] at hbo
      exact absurd rfl hbo

/-- C8: in both execute paths, every configuration handed to the engine
after staging binary inputs mounts every input as
"hostPath:containerPath:ro" (read-only), followed by at most one output
mount, present exactly when binary output is enabled and then always the
read-write bind "tempDir/output:/output:rw" rooted at the staging
directory's output subdirectory. -/
theorem volume_mount_invariants (est : List Nat → Nat × Nat) (b : ItemBehavior)
    (pb : PreparedBinary)
    (hin : b.binaryDataInput = true) (hmap : b.mappings ≠ [])
    (hst : b.stagingResult = .ok pb) :
    ∀ t ∈ [runContainerExecuteItem est b, executeContainerWithBinaryBody est b],
      ∀ c ∈ ItemTrace.engineConfigs t, ∃ outputBinds : List String,
        c.volumes = some (pb.mountPoints.map roBind ++ outputBinds) ∧
        (∀ v ∈ pb.mountPoints.map roBind,
          ∃ hostPath containerPath, v = hostPath ++ ":" ++ containerPath ++ ":ro") ∧
        outputBinds.length ≤ 1 ∧
        (b.binaryDataOutput = true → outputBinds = [pb.tempDir ++ "/output:/output:rw"]) ∧
        (b.binaryDataOutput = false → outputBinds = []) := by
  have hro : ∀ v ∈ pb.mountPoints.map roBind,
      ∃ hostPath containerPath, v = hostPath ++ ":" ++ containerPath ++ ":ro" := by
    intro v hv
    obtain ⟨mp, -, hmp⟩ := List.mem_map.mp hv
    exact ⟨mp.1, mp.2, hmp ▸ rfl⟩
  intro t ht c hc
  have hrun : ∀ env cnt, c ∈ (runWithConfig est b env cnt).engineConfigs →
      ∃ outputBinds : List String,
        c.volumes = some (pb.mountPoints.map roBind ++ outputBinds) ∧
        (∀ v ∈ pb.mountPoints.map roBind,
          ∃ hostPath containerPath, v = hostPath ++ ":" ++ containerPath ++ ":ro") ∧
        outputBinds.length ≤ 1 ∧
        (b.binaryDataOutput = true → outputBinds = [pb.tempDir ++ "/output:/output:rw"]) ∧
        (b.binaryDataOutput = false → outputBinds = []) := by
    intro env cnt hcc
    obtain ⟨ob, h1, h2, h3, h4⟩ := runWithConfig_volumes est b pb env cnt hin hmap hst c hcc
    exact ⟨ob, h1, hro, h2, h3, h4⟩
  simp only [List.mem_cons, List.mem_singleton, List.not_mem_nil, or_false] at ht
  rcases ht with rfl | rfl
  · by_cases hv : b.validation.valid = false
    · simp [runContainerExecuteItem, hv] at hc
    · unfold runContainerExecuteItem at hc
      rw [if_neg hv] at hc
      rcases henv : b.envResult with e | ed
      · rw [henv] at hc
        simp at hc
      · rw [henv] at hc
        exact hrun ed.1 ed.2 hc
  · by_cases hv : b.validation.valid = false
    · simp [executeContainerWithBinaryBody, hv] at hc
    · unfold executeContainerWithBinaryBody at hc
      rw [if_neg hv] at hc
      exact hrun b.envVars b.envVars.length hc

/-- A staging outcome with one mounted input file. -/
def stagedPB : PreparedBinary :=
  { tempDir := "/tmp/n8n-docker-1",
    mountPoints := [("/tmp/n8n-docker-1/data", "/input/data.bin")],
    fileSizes := [1024] }

/-- An item with one staged binary input and binary output enabled. -/
def stagedItem : ItemBehavior :=
  { image := "alpine:3.19", entrypoint := "", command := "echo",
    detectedSocket := "/var/run/docker.sock",
    validation := { valid := true, errors := [] },
    envResult := .ok (["A=1"], 1), envVars := ["A=1"],
    binaryDataInput := true, binaryDataOutput := true,
    mappings := [("data", "/input/data.bin")],
    stagingResult := .ok stagedPB,
    mkdtempResult := .error (.mkdtempFail "unused"),
    outputDirResult := .ok (),
    engineResult := .ok { stdout := "hi", stderr := "", exitCode := 0,
                          success := true, hasOutput := false },
    collectResult := .ok [], outputFilePattern := "*" }

/-- The configuration the staged item hands to the engine. -/
def stagedConfig : ContainerExecutionConfig :=
  { image := "alpine:3.19", entrypoint := none, command := some "echo",
    environmentVariables := ["A=1"], socketPath := "/var/run/docker.sock",
    autoRemove := true, pullPolicy := "missing",
    volumes := some ["/tmp/n8n-docker-1/data:/input/data.bin:ro",
                     "/tmp/n8n-docker-1/output:/output:rw"],
    memory := some 256, cpuQuota := some 50 }

/-- C8 witness: for the concrete staged item, the configuration handed to
the engine carries the read-only input bind followed by the single
read-write output bind. -/
theorem volume_mount_invariants_example :
    (stagedItem.binaryDataInput = true ∧ stagedItem.mappings ≠ [] ∧
      stagedItem.stagingResult = .ok stagedPB ∧
      stagedConfig ∈ (runContainerExecuteItem (fun _ => (256, 50)) stagedItem).engineConfigs) ∧
    stagedConfig.volumes
      = some (stagedPB.mountPoints.map roBind ++ [stagedPB.tempDir ++ "/output:/output:rw"]) := by
  have hmem : stagedConfig ∈ (runContainerExecuteItem (fun _ => (256, 50)) stagedItem).engineConfigs := by
    decide
  refine ⟨⟨rfl, by decide, rfl, hmem⟩, ?_⟩
  obtain ⟨ob, h1, -, -, h4, -⟩ :=
    volume_mount_invariants (fun _ => (256, 50)) stagedItem stagedPB rfl (by decide) rfl
      (runContainerExecuteItem (fun _ => (256, 50)) stagedItem) (by simp)
      stagedConfig hmem
  rw [h1, h4 rfl]

/-- With binary input enabled but no mappings, the binary phase leaves the
configuration untouched and acquires nothing. -/
theorem binaryPhase_empty_mappings (est : List Nat → Nat × Nat) (b : ItemBehavior)
    (cfg0 : ContainerExecutionConfig) (hin : b.binaryDataInput = true)
    (hmap : b.mappings = []) :
    binaryPhase est b cfg0 = (.ok (cfg0, none), [], []) := by
  simp [binaryPhase, hin, hmap]

/-- With binary input enabled but no mappings, the shared tail acquires no
directory, creates no output directory, hands the initial configuration to
the engine, and never attaches binary output. -/
theorem runWithConfig_empty_mappings (est : List Nat → Nat × Nat) (b : ItemBehavior)
    (env : List String) (cnt : Nat) (hin : b.binaryDataInput = true)
    (hmap : b.mappings = []) :
    (runWithConfig est b env cnt).acquiredDirs = [] ∧
    (runWithConfig est b env cnt).outputDirCalls = [] ∧
    (runWithConfig est b env cnt).engineConfigs = [initialConfig b env] ∧
    (∀ o, (runWithConfig est b env cnt).result = .ok o →
      o.binary = none ∧ o.outputFilesCount = none) := by
  unfold runWithConfig
  rw [binaryPhase_empty_mappings est b _ hin hmap]
  refine ⟨rfl, rfl, rfl, ?_⟩
  intro o ho
  simp only [Option.isSome_none, Bool.and_false] at ho
  cases her : b.engineResult with
  | error e =>
    rw [her] at ho
    cases ho
  | ok r =>
    rw [her] at ho
    simp at ho
    rw [← ho]
    exact ⟨rfl, rfl⟩

/-- C10: in both execution paths, binary input enabled with an empty
mapping list acquires no temporary directory, creates no output
directory, derives no resource limits, and hands the engine a
configuration with no volumes (even when binary output is also enabled),
and the item's successful result never carries binary output. -/
theorem empty_mappings_no_staging (est : List Nat → Nat × Nat) (b : ItemBehavior)
    (hin : b.binaryDataInput = true) (hmap : b.mappings = []) :
    ∀ t ∈ [runContainerExecuteItem est b, executeContainerWithBinaryBody est b],
      ItemTrace.acquiredDirs t = [] ∧ ItemTrace.outputDirCalls t = [] ∧
      (∀ c ∈ ItemTrace.engineConfigs t,
        c.volumes = none ∧ c.memory = none ∧ c.cpuQuota = none) ∧
      (∀ o, ItemTrace.result t = .ok o → o.binary = none ∧ o.outputFilesCount = none) := by
  intro t ht
  simp only [List.mem_cons, List.mem_singleton, List.not_mem_nil, or_false] at ht
  rcases ht with rfl | rfl
  · by_cases hv : b.validation.valid = false
    · simp [runContainerExecuteItem, hv]
    · unfold runContainerExecuteItem
      rw [if_neg hv]
      rcases henv : b.envResult with e | ed
      · simp
      · obtain ⟨h1, h2, h3, h4⟩ := runWithConfig_empty_mappings est b ed.1 ed.2 hin hmap
        refine ⟨h1, h2, ?_, h4⟩
        intro c hc
        rw [h3] at hc
        simp at hc
        subst hc
        exact ⟨rfl, rfl, rfl⟩
  · by_cases hv : b.validation.valid = false
    · simp [executeContainerWithBinaryBody, hv]
    · unfold executeContainerWithBinaryBody
      rw [if_neg hv]
      obtain ⟨h1, h2, h3, h4⟩ :=
        runWithConfig_empty_mappings est b b.envVars b.envVars.length hin hmap
      refine ⟨h1, h2, ?_, h4⟩
      intro c hc
      rw [h3] at hc
      simp at hc
      subst hc
      exact ⟨rfl, rfl, rfl⟩

/-- The staged item with binary input enabled but an empty mapping list
(binary output still enabled). -/
def emptyMappingsItem : ItemBehavior := { stagedItem with mappings := [] }

/-- C10 witness: the item with an empty mapping list acquires no directory
and creates no output directory even though binary output is enabled. -/
theorem empty_mappings_no_staging_example :
    (emptyMappingsItem.binaryDataInput = true ∧ emptyMappingsItem.binaryDataOutput = true ∧
      emptyMappingsItem.mappings = []) ∧
    (runContainerExecuteItem (fun _ => (256, 50)) emptyMappingsItem).acquiredDirs = [] ∧
    (runContainerExecuteItem (fun _ => (256, 50)) emptyMappingsItem).outputDirCalls = [] := by
  obtain ⟨h1, h2, -, -⟩ := empty_mappings_no_staging (fun _ => (256, 50)) emptyMappingsItem rfl rfl
    (runContainerExecuteItem (fun _ => (256, 50)) emptyMappingsItem) (by simp)
  exact ⟨⟨rfl, rfl, rfl⟩, h1, h2⟩
